import Mathlib

/-!
Verification development for the GameHub API proxy worker
(source: src/index.ts, a Cloudflare Worker request router).

The worker is shallowly embedded: JSON values become an inductive type,
the JavaScript runtime behaviours the code relies on (truthiness, property
access, property-key coercion, JSON.stringify, Array.prototype.slice,
String.prototype.replace with a string pattern, template interpolation)
become executable Lean functions, and the platform facilities the code
merely consumes (JSON.parse, upstream fetch, the token cache, the md5
digest imported from md5.js, which is not part of the sources) are oracle
parameters of the router.  The router itself is a function from a request
plus those oracles to a response, together with the list of upstream
fetches it issued.
-/

/-- JSON values, as produced by JSON.parse.  Numbers are modelled as
integers (all numeric fields handled by the worker are integral); objects
are association lists in property order. -/
inductive Json where
  | null
  | bool (b : Bool)
  | num (n : Int)
  | str (s : String)
  | arr (elems : List Json)
  | obj (fields : List (String × Json))
deriving Repr, Inhabited

/-- JavaScript truthiness of a JSON value. -/
def truthy : Json → Bool
  | .null => false
  | .bool b => b
  | .num n => n != 0
  | .str s => !s.isEmpty
  | .arr _ => true
  | .obj _ => true

/-- Truthiness of a possibly-undefined value (none models undefined). -/
def truthyOpt : Option Json → Bool
  | none => false
  | some j => truthy j

/-- JavaScript property read j[k].  Reading a property of null throws a
TypeError; reading an absent property (or a property of a primitive,
whose index keys are not modelled) yields undefined (none). -/
def jsGet (j : Json) (k : String) : Except String (Option Json) :=
  match j with
  | .null => .error ("Cannot read properties of null (reading '" ++ k ++ "')")
  | .obj fs => .ok ((fs.find? (fun p => p.1 == k)).map (fun p => p.2))
  | _ => .ok none

/-- Replace the value of the first field named k, or append the field. -/
def setField : List (String × Json) → String → Json → List (String × Json)
  | [], k, v => [(k, v)]
  | (k', w) :: rest, k, v =>
    if k' == k then (k, v) :: rest else (k', w) :: setField rest k v

/-- JavaScript property assignment j[k] = v.  Assigning to null throws;
assigning to a non-object primitive is a silent no-op (non-strict mode). -/
def jsSet (j : Json) (k : String) (v : Json) : Except String Json :=
  match j with
  | .null => .error ("Cannot set properties of null (setting '" ++ k ++ "')")
  | .obj fs => .ok (.obj (setField fs k v))
  | other => .ok other

/-- JavaScript delete j[k]: removes the field from an object, no-op on
non-objects (the worker only deletes from values already checked truthy). -/
def objDelete (j : Json) (k : String) : Json :=
  match j with
  | .obj fs => .obj (fs.filter (fun p => p.1 ≠ k))
  | other => other

/-- The fields of an object value; Object.keys of a non-object is
modelled as empty (index keys of strings are not modelled). -/
def objFields : Json → List (String × Json)
  | .obj fs => fs
  | _ => []

/-- Convenience: property read on an object value without the throw case. -/
def objGet (j : Json) (k : String) : Option Json :=
  match j with
  | .obj fs => (fs.find? (fun p => p.1 == k)).map (fun p => p.2)
  | _ => none

mutual
/-- JavaScript String() coercion / template interpolation of a JSON
value: numbers and strings print directly, arrays join their elements
with commas (null printing as the empty string), objects print as
"[object Object]". -/
def jsToString : Json → String
  | .null => "null"
  | .bool b => if b then "true" else "false"
  | .num n => toString n
  | .str s => s
  | .arr xs => String.intercalate "," (jsToStringElems xs)
  | .obj _ => "[object Object]"

def jsToStringElems : List Json → List String
  | [] => []
  | .null :: rest => "" :: jsToStringElems rest
  | x :: rest => jsToString x :: jsToStringElems rest
end

/-- Lowercase hexadecimal digit. -/
def hexDigit (n : Nat) : String :=
  if n = 0 then "0" else if n = 1 then "1" else if n = 2 then "2"
  else if n = 3 then "3" else if n = 4 then "4" else if n = 5 then "5"
  else if n = 6 then "6" else if n = 7 then "7" else if n = 8 then "8"
  else if n = 9 then "9" else if n = 10 then "a" else if n = 11 then "b"
  else if n = 12 then "c" else if n = 13 then "d" else if n = 14 then "e"
  else "f"

/-- JSON.stringify escaping of one character inside a string literal. -/
def escChar (c : Char) : String :=
  if c = '"' then "\\\""
  else if c = '\\' then "\\\\"
  else if c = '\n' then "\\n"
  else if c = '\r' then "\\r"
  else if c = '\t' then "\\t"
  else if c = '\x08' then "\\b"
  else if c = '\x0c' then "\\f"
  else if c.toNat < 32 then "\\u00" ++ hexDigit (c.toNat / 16) ++ hexDigit (c.toNat % 16)
  else String.singleton c

/-- JSON.stringify of a string, with quotes and escapes. -/
def quoteStr (s : String) : String :=
  "\"" ++ String.join (s.toList.map escChar) ++ "\""

mutual
/-- JSON.stringify of a JSON value (compact form, property order kept). -/
def stringify : Json → String
  | .null => "null"
  | .bool b => if b then "true" else "false"
  | .num n => toString n
  | .str s => quoteStr s
  | .arr xs => "[" ++ String.intercalate "," (stringifyElems xs) ++ "]"
  | .obj fs => "\x7b" ++ String.intercalate "," (stringifyFields fs) ++ "\x7d"

def stringifyElems : List Json → List String
  | [] => []
  | x :: rest => stringify x :: stringifyElems rest

def stringifyFields : List (String × Json) → List String
  | [] => []
  | (k, v) :: rest => (quoteStr k ++ ":" ++ stringify v) :: stringifyFields rest
end

/-- JSON.stringify of an object literal some of whose property values may
be undefined (none): undefined-valued properties are omitted entirely,
exactly as JSON.stringify does. -/
def stringifyUndefObj (fs : List (String × Option Json)) : String :=
  "\x7b" ++
    String.intercalate ","
      (fs.filterMap (fun p =>
        match p.2 with
        | none => none
        | some v => some (quoteStr p.1 ++ ":" ++ stringify v))) ++
  "\x7d"

/-- Whether the character list s starts with the character list pat. -/
def charsStartWith : List Char → List Char → Bool
  | _, [] => true
  | [], _ :: _ => false
  | c :: cs, d :: ds => c == d && charsStartWith cs ds

/-- Substring containment on character lists. -/
def charsContain (s pat : List Char) : Bool :=
  match s with
  | [] => pat.isEmpty
  | _ :: rest => charsStartWith s pat || charsContain rest pat

/-- JavaScript s.includes(sub): substring containment. -/
def strIncludes (s sub : String) : Bool :=
  charsContain s.toList sub.toList

/-- Replace the first occurrence of pat in s by rep (character lists). -/
def replaceFirstChars (s pat rep : List Char) : List Char :=
  match s with
  | [] => if pat.isEmpty then rep else []
  | c :: rest =>
    if charsStartWith s pat then rep ++ s.drop pat.length
    else c :: replaceFirstChars rest pat rep

/-- JavaScript s.replace(pat, rep) with a string pattern: replaces only
the first occurrence. -/
def replaceFirst (s pat rep : String) : String :=
  String.mk (replaceFirstChars s.toList pat.toList rep.toList)

/-- ASCII lower-casing (the header names and digest output handled by
the worker are ASCII). -/
def lowerStr (s : String) : String :=
  String.mk (s.toList.map Char.toLower)

/-- Header lists.  The platform Headers class matches names
case-insensitively; get returns the first matching entry. -/
abbrev HeaderList := List (String × String)

def hGet (hs : HeaderList) (name : String) : Option String :=
  (hs.find? (fun p => lowerStr p.1 == lowerStr name)).map (fun p => p.2)

def hRemove (hs : HeaderList) (name : String) : HeaderList :=
  hs.filter (fun p => lowerStr p.1 ≠ lowerStr name)

/-- Headers.set: overwrite the first case-insensitive match in place and
drop any later duplicates, else append. -/
def hSet : HeaderList → String → String → HeaderList
  | [], n, v => [(n, v)]
  | (k, w) :: rest, n, v =>
    if lowerStr k == lowerStr n then (k, v) :: hRemove rest n
    else (k, w) :: hSet rest n v

/-- Record (plain JS object) update for string-valued objects: spread /
property-definition semantics, exact (case-sensitive) keys, first
occurrence keeps its position, last value wins. -/
def setPairField : List (String × String) → String → String → List (String × String)
  | [], k, v => [(k, v)]
  | (k', w) :: rest, k, v =>
    if k' == k then (k, v) :: rest else (k', w) :: setPairField rest k v

/-- Object.fromEntries over a header list: build a record by inserting
the entries in order. -/
def jsRecord (l : List (String × String)) : List (String × String) :=
  l.foldl (fun acc p => setPairField acc p.1 p.2) []

/-- Exact-key (record-level) lookup. -/
def recordGet (l : List (String × String)) (k : String) : Option String :=
  (l.find? (fun p => p.1 == k)).map (fun p => p.2)

/-! ## Constants of the worker (src/index.ts, top of file) -/

def GITHUB_BASE : String := "https://raw.githubusercontent.com/gamehublite/gamehub_api/main"

def NEWS_AGGREGATOR_URL : String := "https://gamehub-news-aggregator.secureflex.workers.dev"

def GAMEHUB_SECRET_KEY : String := "all-egg-shell-y7ZatUDk"

/-- The fixed component-type table TYPE_TO_MANIFEST.  JavaScript property
access coerces the lookup key to a string, so the table is indexed by the
string form of the key. -/
def typeToManifest (k : String) : Option String :=
  if k = "1" then some "/components/box64_manifest"
  else if k = "2" then some "/components/drivers_manifest"
  else if k = "3" then some "/components/dxvk_manifest"
  else if k = "4" then some "/components/vkd3d_manifest"
  else if k = "5" then some "/components/games_manifest"
  else if k = "6" then some "/components/libraries_manifest"
  else if k = "7" then some "/components/steam_manifest"
  else none

/-! ## Signature algorithm (generateSignature, src/index.ts lines 16-21) -/

/-- The string interpolation of params[key] inside the signature: the
key always comes from Object.keys, but the function is total. -/
def lookupStr (params : List (String × Json)) (k : String) : String :=
  match params.find? (fun p => p.1 == k) with
  | some p => jsToString p.2
  | none => "undefined"

/-- The string that gets digested: keys of the object except sign,
sorted (JavaScript default sort is lexicographic on the string form),
joined as key=value with ampersands, then the shared secret appended. -/
def signBase (params : List (String × Json)) : String :=
  let sortedKeys :=
    List.insertionSort (fun a b : String => a ≤ b)
      ((params.map Prod.fst).filter (fun k => k ≠ "sign"))
  let paramString :=
    String.intercalate "&" (sortedKeys.map (fun k => k ++ "=" ++ lookupStr params k))
  paramString ++ "&" ++ GAMEHUB_SECRET_KEY

/-- generateSignature.  The md5 digest comes from md5.js, which is not
among the sources; it is passed as an opaque function parameter, so every
theorem about the signature holds for the actual digest as well. -/
def generateSignature (md5 : String → String) (params : List (String × Json)) : String :=
  lowerStr (md5 (signBase params))

/-! ## Requests, responses, upstream oracle -/

structure HttpRequest where
  method : String
  path : String
  headers : HeaderList
  body : Option String
deriving Repr, DecidableEq

structure HttpResponse where
  status : Nat
  headers : HeaderList
  body : Option String
deriving Repr, DecidableEq

/-- One outbound fetch issued by the worker. -/
structure FetchCall where
  url : String
  method : String
  headers : HeaderList
  body : Option String
deriving Repr, DecidableEq

/-- An upstream response as the worker observes it. -/
structure UpstreamResp where
  status : Nat
  headers : HeaderList
  body : String
deriving Repr, DecidableEq

/-- Response.ok of the fetch API: status in the 2xx range. -/
def respOk (r : UpstreamResp) : Bool :=
  200 ≤ r.status && r.status ≤ 299

/-- Pipeline computations: either a thrown error (carrying the message
the outer catch will see) or a value together with the list of upstream
fetches issued, in order. -/
def Pipe (α : Type) : Type := Except String (α × List FetchCall)

def Pipe.pure (a : α) : Pipe α := .ok (a, [])

def prependLog (l : List FetchCall) : Pipe α → Pipe α
  | .error e => .error e
  | .ok (b, l2) => .ok (b, l ++ l2)

def Pipe.bind (x : Pipe α) (f : α → Pipe β) : Pipe β :=
  match x with
  | .error e => .error e
  | .ok (a, l1) => prependLog l1 (f a)

instance : Monad Pipe where
  pure := Pipe.pure
  bind := Pipe.bind

/-- Throwing inside the try block. -/
def pthrow (e : String) : Pipe α := .error e

/-- Issue an upstream fetch: records the call and yields the oracle's
response for it. -/
def pfetch (oracle : FetchCall → UpstreamResp) (c : FetchCall) : Pipe UpstreamResp :=
  .ok (oracle c, [c])

/-- JSON.parse / response.json(), via the parse oracle; a parse failure
is a thrown error. -/
def pparse (parse : String → Except String Json) (s : String) : Pipe Json :=
  match parse s with
  | .error e => .error e
  | .ok j => .ok (j, [])

/-- Property read lifted into the pipeline (throws on null). -/
def jsGetP (j : Json) (k : String) : Pipe (Option Json) :=
  match jsGet j k with
  | .error e => .error e
  | .ok v => .ok (v, [])

/-- Property assignment lifted into the pipeline (throws on null). -/
def jsSetP (j : Json) (k : String) (v : Json) : Pipe Json :=
  match jsSet j k v with
  | .error e => .error e
  | .ok j' => .ok (j', [])

/-- JavaScript a || b on a possibly-undefined left operand. -/
def jsOr (v : Option Json) (d : Json) : Json :=
  match v with
  | some j => if truthy j then j else d
  | none => d

/-! ## Token interception (src/index.ts lines 52-170) -/

/-- The body text inspected for the sentinel: read (via a clone) only
for POST requests whose Content-Type includes application/json,
otherwise it stays the empty string. -/
def ctIncludesJson (req : HttpRequest) : Bool :=
  match hGet req.headers "Content-Type" with
  | some ct => strIncludes ct "application/json"
  | none => false

def bodyTextOf (req : HttpRequest) : String :=
  if req.method == "POST" && ctIncludesJson req then
    (req.body.getD "")
  else ""

/-- Sentinel detection: the Authorization header contains fake-token, or
the token header equals it exactly, or the inspected body text contains
it. -/
def shouldReplaceToken (req : HttpRequest) : Bool :=
  (match hGet req.headers "Authorization" with
   | some a => strIncludes a "fake-token"
   | none => false)
  || hGet req.headers "token" == some "fake-token"
  || strIncludes (bodyTextOf req) "fake-token"

/-- Obtain the real token: from the cached response body if the cache
holds one, otherwise from the token refresher endpoint; on a non-success
refresher response the token stays undefined (the cache write is a
fire-and-forget side effect with no observable effect on the response
and is not modelled). -/
def getRealToken (parse : String → Except String Json)
    (oracle : FetchCall → UpstreamResp) (tokenCache : Option String)
    (envTokenUrl : String) : Pipe (Option Json) := do
  match tokenCache with
  | some cachedBody => do
    let cachedData ← pparse parse cachedBody
    jsGetP cachedData "token"
  | none => do
    let tokenResponse ← pfetch oracle
      { url := envTokenUrl ++ "/token", method := "GET",
        headers := [("X-Worker-Auth", "gamehub-internal-token-fetch-2025")],
        body := none }
    if respOk tokenResponse then do
      let tokenData ← pparse parse tokenResponse.body
      jsGetP tokenData "token"
    else
      pure none

/-- The header rewriting performed once a real token (string form t) was
obtained: replace the first occurrence of the sentinel inside the
Authorization header if it contains it, and overwrite the token header if
it equals the sentinel. -/
def interceptHeaders (req : HttpRequest) (t : String) : HeaderList :=
  let h1 :=
    match hGet req.headers "Authorization" with
    | some a =>
      if strIncludes a "fake-token" then
        hSet req.headers "Authorization" (replaceFirst a "fake-token" t)
      else req.headers
    | none => req.headers
  if hGet req.headers "token" == some "fake-token" then hSet h1 "token" t else h1

/-- The full token interception stage: detection, token resolution, and
request rewriting.  When the body text contained the sentinel the body is
re-parsed, its token field overwritten, the signature regenerated, and
the request rebuilt with the re-serialized body; when only headers
matched, the request is rebuilt from the inspected body text (which is
empty, hence the new request has no body, whenever the request was not a
JSON POST); without a real token, or without a detection, the original
request flows on unchanged. -/
def interceptToken (md5 : String → String) (parse : String → Except String Json)
    (oracle : FetchCall → UpstreamResp) (tokenCache : Option String)
    (envTokenUrl : String) (req : HttpRequest) : Pipe HttpRequest := do
  if shouldReplaceToken req then do
    let realToken ← getRealToken parse oracle tokenCache envTokenUrl
    match realToken with
    | some t =>
      if truthy t then do
        let newHeaders := interceptHeaders req (jsToString t)
        let bodyText := bodyTextOf req
        if bodyText ≠ "" && strIncludes bodyText "fake-token" then do
          let bodyJson ← pparse parse bodyText
          let bodyJson1 ← jsSetP bodyJson "token" t
          let newSignature := generateSignature md5 (objFields bodyJson1)
          let bodyJson2 ← jsSetP bodyJson1 "sign" (.str newSignature)
          pure { method := req.method, path := req.path,
                 headers := newHeaders, body := some (stringify bodyJson2) }
        else if bodyText ≠ "" then
          pure { method := req.method, path := req.path,
                 headers := newHeaders, body := some bodyText }
        else
          pure { method := req.method, path := req.path,
                 headers := newHeaders, body := none }
      else
        pure req
    | none => pure req
  else
    pure req

/-! ## Response shaping -/

def corsHeaders : HeaderList :=
  [("Access-Control-Allow-Origin", "*"),
   ("Access-Control-Allow-Methods", "GET, POST, OPTIONS"),
   ("Access-Control-Allow-Headers", "Content-Type")]

def jsonCors : HeaderList :=
  ("Content-Type", "application/json") :: corsHeaders

def jsonResp (s : String) : HttpResponse :=
  { status := 200, headers := jsonCors, body := some s }

def jsonRespStatus (st : Nat) (s : String) : HttpResponse :=
  { status := st, headers := jsonCors, body := some s }

/-! ## The fixed envelopes the handlers build -/

def newsFailEnvelope : Json :=
  .obj [("code", .num 500), ("msg", .str "Failed to fetch news"),
        ("time", .str ""), ("data", .arr [])]

def missingIdEnvelope : Json :=
  .obj [("code", .num 400), ("msg", .str "Missing id parameter"),
        ("time", .str ""), ("data", .null)]

def newsNotFoundEnvelope : Json :=
  .obj [("code", .num 404), ("msg", .str "News not found"),
        ("time", .str ""), ("data", .null)]

def baseInfoFailEnvelope : Json :=
  .obj [("code", .num 500), ("msg", .str "Failed to fetch base info")]

def timerFailEnvelope : Json :=
  .obj [("code", .num 500), ("msg", .str "Failed to check timer")]

def dnsPoolFailEnvelope : Json :=
  .obj [("code", .num 500), ("msg", .str "Failed to fetch DNS pool")]

def steamHostsFailEnvelope : Json :=
  .obj [("code", .num 500), ("msg", .str "Failed to fetch Steam hosts")]

def invalidTypeEnvelope : Json :=
  .obj [("code", .num 400), ("msg", .str "Invalid type parameter")]

def manifestFailEnvelope : Json :=
  .obj [("code", .num 500), ("msg", .str "Failed to fetch manifest")]

def errorEnvelope (e : String) : Json :=
  .obj [("code", .num 500), ("msg", .str ("Error: " ++ e))]

/-! ## Per-route helpers -/

/-- JavaScript property key coercion: TYPE_TO_MANIFEST[type] turns the
key into its string form (an undefined key reads as "undefined"). -/
def jsKeyOf : Option Json → String
  | some j => jsToString j
  | none => "undefined"

/-- Numeric view of a JSON value for the pagination arithmetic.  Only
number values are numeric here; other values are modelled as NaN (none).
(JavaScript would coerce some non-number values to numbers; no route of
the worker is specified on such inputs, and NaN indexes slice as 0.) -/
def asNum : Json → Option Int
  | .num n => some n
  | _ => none

/-- JavaScript .length as read by the pagination code: defined for
arrays and strings, undefined otherwise. -/
def jsLength : Json → Option Json
  | .arr xs => some (.num xs.length)
  | .str s => some (.num s.length)
  | _ => none

/-- Array.prototype.slice index semantics: NaN start or end clamps to 0,
negative indexes count from the end, the result is the elements from the
resolved start (inclusive) to the resolved end (exclusive). -/
def jsSliceList (xs : List α) (s e : Option Int) : List α :=
  let L : Int := xs.length
  let sI : Int := s.getD 0
  let eI : Int := e.getD 0
  let s' : Int := if sI < 0 then max (L + sI) 0 else min sI L
  let e' : Int := if eI < 0 then max (L + eI) 0 else min eI L
  (xs.drop s'.toNat).take (e'.toNat - s'.toNat)

/-- allItems.slice(start, end): defined on arrays (and strings, which
also carry slice); on any other receiver the call throws. -/
def jsSliceVal (j : Json) (s e : Option Int) : Except String Json :=
  match j with
  | .arr xs => .ok (.arr (jsSliceList xs s e))
  | .str st => .ok (.str (String.mk (jsSliceList st.toList s e)))
  | _ => .error "allItems.slice is not a function"

def jsSliceP (j : Json) (s e : Option Int) : Pipe Json :=
  match jsSliceVal j s e with
  | .error msg => .error msg
  | .ok v => .ok (v, [])

/-- The sanitized body literal of the executeScript handler: the only
fields read from the input are gpu_vendor, game_type (defaulted to 2 when
falsy), token, sign and time; everything else is a fixed generic
constant.  A field read as undefined stays undefined in the literal and
is then omitted by JSON.stringify. -/
def sanitizeExecBody (body : Json) : Except String (List (String × Option Json)) := do
  let gpuVendor ← jsGet body "gpu_vendor"
  let gameType ← jsGet body "game_type"
  let token ← jsGet body "token"
  let sign ← jsGet body "sign"
  let time ← jsGet body "time"
  pure [("gpu_vendor", gpuVendor),
        ("gpu_version", some (.num 0)),
        ("gpu_device_name", some (.str "Generic Device")),
        ("game_type", some (jsOr gameType (.num 2))),
        ("token", token),
        ("game_id", some (.str "0")),
        ("sign", sign),
        ("time", time),
        ("clientparams", some (.str "5.1.0|0|en|Generic|1920*1080|app|app|generic|||||||||com.app|Generic|generic")),
        ("gpu_system_driver_version", some (.num 0))]

def sanitizeExecBodyP (body : Json) : Pipe (List (String × Option Json)) :=
  match sanitizeExecBody body with
  | .error e => .error e
  | .ok fs => .ok (fs, [])

/-- The headers of the fallback response: the upstream headers turned
into a record by Object.fromEntries, then the CORS entries spread over
it, then Cache-Control set (spread semantics: exact keys, last wins). -/
def fallbackHeaders (upstream : HeaderList) : HeaderList :=
  setPairField
    (corsHeaders.foldl (fun acc p => setPairField acc p.1 p.2) (jsRecord upstream))
    "Cache-Control" "public, max-age=300"

/-! ## Route dispatch (src/index.ts lines 175-470) -/

def dispatch (parse : String → Except String Json)
    (oracle : FetchCall → UpstreamResp) (now : Nat)
    (req : HttpRequest) : Pipe HttpResponse := do
  if req.path == "/card/getGameDetail" && req.method == "POST" then do
    let bodyText := req.body.getD ""
    let chineseResponse ← pfetch oracle
      { url := "https://landscape-api.vgabc.com/card/getGameDetail",
        method := "POST", headers := req.headers, body := some bodyText }
    let responseData ← pparse parse chineseResponse.body
    let dataOpt ← jsGetP responseData "data"
    let responseData1 ←
      match dataOpt with
      | some d =>
        if truthy d then
          jsSetP responseData "data"
            (objDelete (objDelete d "recommend_game") "card_line_data")
        else Pipe.pure responseData
      | none => Pipe.pure responseData
    Pipe.pure (jsonResp (stringify responseData1))
  else if req.path == "/card/getNewsList" && req.method == "POST" then do
    let body ← pparse parse (req.body.getD "")
    let pageOpt ← jsGetP body "page"
    let pageSizeOpt ← jsGetP body "page_size"
    let page := jsOr pageOpt (.num 1)
    let pageSize := jsOr pageSizeOpt (.num 4)
    let newsResponse ← pfetch oracle
      { url := NEWS_AGGREGATOR_URL ++ "/api/news/list?page=" ++ jsToString page
                 ++ "&page_size=" ++ jsToString pageSize,
        method := "GET", headers := [], body := none }
    if !respOk newsResponse then
      Pipe.pure (jsonResp (stringify newsFailEnvelope))
    else do
      let newsData ← pparse parse newsResponse.body
      Pipe.pure (jsonResp (stringify newsData))
  else if req.path == "/card/getNewsGuideDetail" && req.method == "POST" then do
    let body ← pparse parse (req.body.getD "")
    let newsIdOpt ← jsGetP body "id"
    if !truthyOpt newsIdOpt then
      Pipe.pure (jsonRespStatus 400 (stringify missingIdEnvelope))
    else do
      let newsDetailResponse ← pfetch oracle
        { url := NEWS_AGGREGATOR_URL ++ "/api/news/detail/" ++ jsKeyOf newsIdOpt,
          method := "GET", headers := [], body := none }
      if !respOk newsDetailResponse then
        Pipe.pure (jsonRespStatus 404 (stringify newsNotFoundEnvelope))
      else do
        let newsDetailData ← pparse parse newsDetailResponse.body
        Pipe.pure (jsonResp (stringify newsDetailData))
  else if req.path == "/simulator/executeScript" && req.method == "POST" then do
    let body ← pparse parse (req.body.getD "")
    let sanitizedBody ← sanitizeExecBodyP body
    let chineseResponse ← pfetch oracle
      { url := "https://landscape-api.vgabc.com/simulator/executeScript",
        method := "POST", headers := [("Content-Type", "application/json")],
        body := some (stringifyUndefObj sanitizedBody) }
    let responseData ← pparse parse chineseResponse.body
    Pipe.pure (jsonResp (stringify responseData))
  else if req.path == "/base/getBaseInfo" && req.method == "POST" then do
    let response ← pfetch oracle
      { url := GITHUB_BASE ++ "/base/getBaseInfo", method := "GET",
        headers := [], body := none }
    if !respOk response then
      Pipe.pure (jsonRespStatus 500 (stringify baseInfoFailEnvelope))
    else do
      let data ← pparse parse response.body
      Pipe.pure (jsonResp (stringify data))
  else if req.path == "/cloud/game/check_user_timer" && req.method == "POST" then do
    let response ← pfetch oracle
      { url := GITHUB_BASE ++ "/cloud/game/check_user_timer", method := "GET",
        headers := [], body := none }
    if !respOk response then
      Pipe.pure (jsonRespStatus 500 (stringify timerFailEnvelope))
    else do
      let data ← pparse parse response.body
      Pipe.pure (jsonResp (stringify data))
  else if req.path == "/game/getDnsIpPool" && req.method == "POST" then do
    let dnsPoolResponse ← pfetch oracle
      { url := GITHUB_BASE ++ "/game/getDnsIpPool", method := "GET",
        headers := [], body := none }
    if !respOk dnsPoolResponse then
      Pipe.pure (jsonRespStatus 500 (stringify dnsPoolFailEnvelope))
    else do
      let dnsPoolData ← pparse parse dnsPoolResponse.body
      Pipe.pure (jsonResp (stringify dnsPoolData))
  else if req.path == "/game/getSteamHost" && req.method == "GET" then do
    let hostsResponse ← pfetch oracle
      { url := GITHUB_BASE ++ "/game/getSteamHost/index", method := "GET",
        headers := [], body := none }
    if !respOk hostsResponse then
      Pipe.pure (jsonRespStatus 500 (stringify steamHostsFailEnvelope))
    else
      Pipe.pure { status := 200,
                  headers := ("Content-Type", "text/plain") :: corsHeaders,
                  body := some hostsResponse.body }
  else if req.path == "/card/getGameIcon" && req.method == "POST" then
    Pipe.pure (jsonResp (stringify (.obj
      [("code", .num 200), ("msg", .str ""),
       ("time", .str (toString (now / 1000))), ("data", .arr [])])))
  else if req.path == "/simulator/v2/getComponentList" && req.method == "POST" then do
    let body ← pparse parse (req.body.getD "")
    let typeOpt ← jsGetP body "type"
    let pageOpt ← jsGetP body "page"
    let pageSizeOpt ← jsGetP body "page_size"
    let page := jsOr pageOpt (.num 1)
    let pageSize := jsOr pageSizeOpt (.num 10)
    if !truthyOpt typeOpt || (typeToManifest (jsKeyOf typeOpt)).isNone then
      Pipe.pure (jsonRespStatus 400 (stringify invalidTypeEnvelope))
    else do
      let response ← pfetch oracle
        { url := GITHUB_BASE ++ (typeToManifest (jsKeyOf typeOpt)).getD "",
          method := "GET", headers := [], body := none }
      if !respOk response then
        Pipe.pure (jsonRespStatus 500 (stringify manifestFailEnvelope))
      else do
        let manifestData ← pparse parse response.body
        let dataOpt ← jsGetP manifestData "data"
        let manifestData1 ←
          match dataOpt with
          | some d =>
            if truthy d then do
              let compOpt ← jsGetP d "components"
              match compOpt with
              | some c =>
                if truthy c then do
                  let d1 ← jsSetP d "list" c
                  jsSetP manifestData "data" (objDelete d1 "components")
                else Pipe.pure manifestData
              | none => Pipe.pure manifestData
            else Pipe.pure manifestData
          | none => Pipe.pure manifestData
        let dataOpt1 ← jsGetP manifestData1 "data"
        match dataOpt1 with
        | some d =>
          if truthy d then do
            let listOpt ← jsGetP d "list"
            if truthyOpt listOpt then do
              let allItems := listOpt.getD .null
              let totalOpt ← jsGetP d "total"
              let total : Option Json :=
                if truthyOpt totalOpt then totalOpt else jsLength allItems
              let startIndex : Option Int :=
                (asNum page).bind (fun p =>
                  (asNum pageSize).map (fun s => (p - 1) * s))
              let endIndex : Option Int :=
                startIndex.bind (fun st =>
                  (asNum pageSize).map (fun s => st + s))
              let paginatedItems ← jsSliceP allItems startIndex endIndex
              let d1 ← jsSetP d "list" paginatedItems
              let d2 ← jsSetP d1 "page" page
              let d3 ← jsSetP d2 "pageSize" pageSize
              -- total is defined whenever the slice above did not throw,
              -- so the null fallback below is never reached
              let d4 ← jsSetP d3 "total" (total.getD .null)
              let manifestData2 ← jsSetP manifestData1 "data" d4
              Pipe.pure (jsonResp (stringify manifestData2))
            else Pipe.pure (jsonResp (stringify manifestData1))
          else Pipe.pure (jsonResp (stringify manifestData1))
        | none => Pipe.pure (jsonResp (stringify manifestData1))
  else do
    let githubResponse ← pfetch oracle
      { url := GITHUB_BASE ++ req.path, method := "GET", headers := [], body := none }
    Pipe.pure { status := githubResponse.status,
                headers := fallbackHeaders githubResponse.headers,
                body := some githubResponse.body }

/-- Whether (method, path) hits one of the explicit routes; everything
else falls through to the static-repository proxy. -/
def matchesRoute (req : HttpRequest) : Bool :=
  (req.path == "/card/getGameDetail" && req.method == "POST")
  || (req.path == "/card/getNewsList" && req.method == "POST")
  || (req.path == "/card/getNewsGuideDetail" && req.method == "POST")
  || (req.path == "/simulator/executeScript" && req.method == "POST")
  || (req.path == "/base/getBaseInfo" && req.method == "POST")
  || (req.path == "/cloud/game/check_user_timer" && req.method == "POST")
  || (req.path == "/game/getDnsIpPool" && req.method == "POST")
  || (req.path == "/game/getSteamHost" && req.method == "GET")
  || (req.path == "/card/getGameIcon" && req.method == "POST")
  || (req.path == "/simulator/v2/getComponentList" && req.method == "POST")

/-! ## The whole worker -/

/-- Everything inside the try block: interception, then dispatch. -/
def pipeline (md5 : String → String) (parse : String → Except String Json)
    (oracle : FetchCall → UpstreamResp) (tokenCache : Option String)
    (envTokenUrl : String) (now : Nat) (req : HttpRequest) : Pipe HttpResponse := do
  let req1 ← interceptToken md5 parse oracle tokenCache envTokenUrl req
  dispatch parse oracle now req1

/-- The exported fetch handler: CORS preflight first, then the pipeline
under the catch-all error boundary. -/
def workerFetch (md5 : String → String) (parse : String → Except String Json)
    (oracle : FetchCall → UpstreamResp) (tokenCache : Option String)
    (envTokenUrl : String) (now : Nat) (req : HttpRequest) : HttpResponse :=
  if req.method == "OPTIONS" then
    { status := 200, headers := corsHeaders, body := none }
  else
    match pipeline md5 parse oracle tokenCache envTokenUrl now req with
    | .ok (r, _) => r
    | .error e => { status := 500, headers := jsonCors,
                    body := some (stringify (errorEnvelope e)) }

/-- The fetch calls the pipeline issued (empty when it threw; the
theorems that count calls state themselves on pipeline directly). -/
def workerCalls (md5 : String → String) (parse : String → Except String Json)
    (oracle : FetchCall → UpstreamResp) (tokenCache : Option String)
    (envTokenUrl : String) (now : Nat) (req : HttpRequest) : List FetchCall :=
  match pipeline md5 parse oracle tokenCache envTokenUrl now req with
  | .ok (_, l) => l
  | .error _ => []

/-! ## Rewriting support for the pipeline monad -/

@[simp] theorem Pipe.pure_def (a : α) : (Pipe.pure a : Pipe α) = .ok (a, []) := rfl

@[simp] theorem Pipe.monadPure_def (a : α) :
    (@Pure.pure Pipe _ α a) = Except.ok (a, []) := rfl

@[simp] theorem prependLog_error (l : List FetchCall) (e : String) :
    prependLog l (.error e : Pipe α) = .error e := rfl

@[simp] theorem prependLog_ok (l : List FetchCall) (b : α) (l2 : List FetchCall) :
    prependLog l (.ok (b, l2) : Pipe α) = .ok (b, l ++ l2) := rfl

@[simp] theorem prependLog_nil (x : Pipe α) : prependLog [] x = x := by
  cases x with
  | error e => rfl
  | ok p => cases p; simp [prependLog]

@[simp] theorem Pipe.bind_error (e : String) (f : α → Pipe β) :
    (Bind.bind (Except.error e : Pipe α) f : Pipe β) = .error e := rfl

@[simp] theorem Pipe.bind_ok (a : α) (l : List FetchCall) (f : α → Pipe β) :
    (Bind.bind (Except.ok (a, l) : Pipe α) f : Pipe β) = prependLog l (f a) := rfl

@[simp] theorem pfetch_def (oracle : FetchCall → UpstreamResp) (c : FetchCall) :
    pfetch oracle c = .ok (oracle c, [c]) := rfl

@[simp] theorem exceptBind_ok (a : α) (f : α → Except ε β) :
    (Bind.bind (Except.ok a : Except ε α) f) = f a := rfl

@[simp] theorem exceptBind_error (e : ε) (f : α → Except ε β) :
    (Bind.bind (Except.error e : Except ε α) f) = .error e := rfl

@[simp] theorem exceptPure_def (a : α) :
    (@Pure.pure (Except ε) _ α a) = Except.ok a := rfl

@[simp] theorem truthy_null : truthy .null = false := rfl

@[simp] theorem truthy_bool (b : Bool) : truthy (.bool b) = b := rfl

@[simp] theorem truthy_num (n : Int) : truthy (.num n) = (n != 0) := rfl

@[simp] theorem truthy_str (s : String) : truthy (.str s) = !s.isEmpty := rfl

@[simp] theorem truthy_arr (xs : List Json) : truthy (.arr xs) = true := rfl

@[simp] theorem truthy_obj (fs : List (String × Json)) : truthy (.obj fs) = true := rfl

@[simp] theorem truthyOpt_none : truthyOpt none = false := rfl

@[simp] theorem truthyOpt_some (j : Json) : truthyOpt (some j) = truthy j := rfl

/-! ## Witness fixtures: concrete oracles for evaluating the theorems -/

/-- A concrete JSON.parse oracle given by a finite table. -/
def tableParse (tbl : List (String × Json)) : String → Except String Json :=
  fun s =>
    match tbl.find? (fun p => p.1 == s) with
    | some p => .ok p.2
    | none => .error ("Unexpected token " ++ s)

/-- A concrete upstream answering every fetch the same way. -/
def constOracle (r : UpstreamResp) : FetchCall → UpstreamResp := fun _ => r

/-- A concrete digest stand-in (the theorems hold for every digest). -/
def dummyMd5 : String → String := fun _ => "0123456789ABCDEF0123456789ABCDEF"

def emptyObjStr : String := stringify (Json.obj [])

/-! ## C10: falsy id on /card/getNewsGuideDetail -/

/-- C10: for every POST to /card/getNewsGuideDetail whose JSON body
yields a falsy id value (absent, 0, empty string, false or null), the
handler returns status 400 with the Missing id parameter envelope
(Content-Type application/json plus CORS) and issues no upstream fetch:
presence of id is decided by truthiness, not key existence. -/
theorem newsGuideDetail_falsy_id_400 (parse : String → Except String Json)
    (oracle : FetchCall → UpstreamResp) (now : Nat) (hs : HeaderList)
    (reqBody : Option String) (j : Json) (idOpt : Option Json)
    (hparse : parse (reqBody.getD "") = .ok j)
    (hid : jsGet j "id" = .ok idOpt)
    (hfalsy : truthyOpt idOpt = false) :
    dispatch parse oracle now
      { method := "POST", path := "/card/getNewsGuideDetail",
        headers := hs, body := reqBody }
      = .ok (jsonRespStatus 400 (stringify missingIdEnvelope), []) := by
  simp [dispatch, pparse, hparse, jsGetP, hid, hfalsy]

def c10Body : Json := .obj [("id", .num 0)]

def c10BodyStr : String := stringify c10Body

/-- C10 witness: the body with id equal to the number 0 (the key is
present but its value is falsy) gets the 400 envelope. -/
theorem newsGuideDetail_falsy_id_400_witness :
    tableParse [(c10BodyStr, c10Body)] ((some c10BodyStr).getD "") = .ok c10Body
    ∧ jsGet c10Body "id" = .ok (some (.num 0))
    ∧ truthyOpt (some (Json.num 0)) = false
    ∧ dispatch (tableParse [(c10BodyStr, c10Body)])
        (constOracle { status := 200, headers := [], body := "" }) 0
        { method := "POST", path := "/card/getNewsGuideDetail",
          headers := [("Content-Type", "application/json")], body := some c10BodyStr }
      = .ok (jsonRespStatus 400 (stringify missingIdEnvelope), []) :=
  ⟨by rfl, by rfl, by rfl,
   newsGuideDetail_falsy_id_400 (tableParse [(c10BodyStr, c10Body)])
     (constOracle { status := 200, headers := [], body := "" }) 0
     [("Content-Type", "application/json")] (some c10BodyStr) c10Body (some (.num 0))
     (by rfl) (by rfl) (by rfl)⟩

/-! ## C1: news-list upstream failure envelope -/

/-- The fetch the news-list handler issues. -/
def newsListCall (page pageSize : Json) : FetchCall :=
  { url := NEWS_AGGREGATOR_URL ++ "/api/news/list?page=" ++ jsToString page
             ++ "&page_size=" ++ jsToString pageSize,
    method := "GET", headers := [], body := none }

def c1Req : HttpRequest :=
  { method := "POST", path := "/card/getNewsList",
    headers := [("Content-Type", "application/json")], body := some emptyObjStr }

/-- C1 counterexample: the fixed envelope returned when the news
aggregator answers 503 is not a success envelope: the worker responds
with HTTP status 200, but the envelope body it returns carries the error
code 500 (and the message Failed to fetch news), so the claim that an
empty-success rather than an error-coded envelope is returned fails on
its code field. -/
theorem newsList_failure_envelope_error_coded_cex :
    workerFetch dummyMd5 (tableParse [(emptyObjStr, .obj [])])
        (constOracle { status := 503, headers := [], body := "" })
        none "https://token.example" 0 c1Req
      = { status := 200, headers := jsonCors, body := some (stringify newsFailEnvelope) }
    ∧ objGet newsFailEnvelope "code" = some (.num 500)
    ∧ (500 : Int) ≠ 200 := by
  refine ⟨by rfl, by rfl, by decide⟩

/-- C1 as amended: for every POST routed to /card/getNewsList whose
body parses and whose news-service fetch returns a non-success status,
the handler returns the fixed envelope with HTTP status 200 and body
code 500, msg Failed to fetch news, empty time, empty data array, with
Content-Type application/json and the CORS headers, and that news fetch
is the only upstream call of the handler.  (Stated on dispatch, the
routing stage every request reaches after token interception, which
preserves method and path.) -/
theorem newsList_upstream_failure_fixed_envelope
    (parse : String → Except String Json) (oracle : FetchCall → UpstreamResp)
    (now : Nat) (hs : HeaderList) (reqBody : Option String) (j : Json)
    (pOpt psOpt : Option Json)
    (hparse : parse (reqBody.getD "") = .ok j)
    (hp : jsGet j "page" = .ok pOpt)
    (hps : jsGet j "page_size" = .ok psOpt)
    (hfail : respOk (oracle (newsListCall (jsOr pOpt (.num 1)) (jsOr psOpt (.num 4)))) = false) :
    dispatch parse oracle now
      { method := "POST", path := "/card/getNewsList", headers := hs, body := reqBody }
      = .ok (jsonResp (stringify newsFailEnvelope),
             [newsListCall (jsOr pOpt (.num 1)) (jsOr psOpt (.num 4))]) := by
  simp [dispatch, pparse, hparse, jsGetP, hp, hps, newsListCall] at hfail ⊢
  simp [hfail]

/-- C1 witness: a body requesting page 2 with page size 5 against an
aggregator answering 503 receives the fixed envelope. -/
theorem newsList_upstream_failure_fixed_envelope_witness :
    tableParse [(stringify (Json.obj [("page", .num 2), ("page_size", .num 5)]),
                 Json.obj [("page", .num 2), ("page_size", .num 5)])]
        ((some (stringify (Json.obj [("page", .num 2), ("page_size", .num 5)]))).getD "")
      = .ok (Json.obj [("page", .num 2), ("page_size", .num 5)])
    ∧ respOk (constOracle { status := 503, headers := [], body := "" }
        (newsListCall (jsOr (some (.num 2)) (.num 1)) (jsOr (some (.num 5)) (.num 4)))) = false
    ∧ dispatch
        (tableParse [(stringify (Json.obj [("page", .num 2), ("page_size", .num 5)]),
                      Json.obj [("page", .num 2), ("page_size", .num 5)])])
        (constOracle { status := 503, headers := [], body := "" }) 0
        { method := "POST", path := "/card/getNewsList", headers := [],
          body := some (stringify (Json.obj [("page", .num 2), ("page_size", .num 5)])) }
      = .ok (jsonResp (stringify newsFailEnvelope),
             [newsListCall (jsOr (some (.num 2)) (.num 1)) (jsOr (some (.num 5)) (.num 4))]) := by
  refine ⟨by rfl, by rfl, ?_⟩
  exact newsList_upstream_failure_fixed_envelope
    (tableParse [(stringify (Json.obj [("page", .num 2), ("page_size", .num 5)]),
                  Json.obj [("page", .num 2), ("page_size", .num 5)])])
    (constOracle { status := 503, headers := [], body := "" }) 0 []
    (some (stringify (Json.obj [("page", .num 2), ("page_size", .num 5)])))
    (Json.obj [("page", .num 2), ("page_size", .num 5)])
    (some (.num 2)) (some (.num 5)) (by rfl) (by rfl) (by rfl) (by rfl)

/-! ## C9: component-list type validation -/

def c9Body : Json := .obj [("type", .str "3")]

def c9BodyStr : String := stringify c9Body

/-- C9 counterexample: a body whose type field is the STRING "3" is not
one of the seven mapped integers 1-7, yet the worker does not return
400: JavaScript property lookup coerces the key to a string, so
TYPE_TO_MANIFEST["3"] is found, the manifest fetch is issued (here one
upstream fetch is performed and answered 503), and the handler returns
the 500 manifest-failure envelope instead of the claimed 400. -/
theorem componentList_string_type_passes_validation_cex :
    pipeline dummyMd5 (tableParse [(c9BodyStr, c9Body)])
        (constOracle { status := 503, headers := [], body := "" })
        none "https://token.example" 0
        { method := "POST", path := "/simulator/v2/getComponentList",
          headers := [("Content-Type", "application/json")], body := some c9BodyStr }
      = .ok (jsonRespStatus 500 (stringify manifestFailEnvelope),
             [{ url := GITHUB_BASE ++ "/components/dxvk_manifest",
                method := "GET", headers := [], body := none }])
    ∧ (500 : Nat) ≠ 400
    ∧ [{ url := GITHUB_BASE ++ "/components/dxvk_manifest",
         method := "GET", headers := [], body := none : FetchCall }].length ≠ 0 := by
  refine ⟨by rfl, by decide, by decide⟩

/-- C9 as amended: for every POST routed to
/simulator/v2/getComponentList whose parsed body has a type value that
is falsy (absent, 0, null, false, empty string) or whose JavaScript
string coercion is not one of the keys "1".."7" of the type table (for
example type 99), the handler returns status 400 with the Invalid type
parameter envelope and performs no upstream fetch.  (A string such as
"3" coerces to a mapped key and therefore passes validation, which is
why the claim cannot quantify over all non-integer values.) -/
theorem componentList_invalid_type_400 (parse : String → Except String Json)
    (oracle : FetchCall → UpstreamResp) (now : Nat) (hs : HeaderList)
    (reqBody : Option String) (j : Json) (tyOpt pOpt psOpt : Option Json)
    (hparse : parse (reqBody.getD "") = .ok j)
    (hty : jsGet j "type" = .ok tyOpt)
    (hp : jsGet j "page" = .ok pOpt)
    (hps : jsGet j "page_size" = .ok psOpt)
    (hbad : truthyOpt tyOpt = false ∨ typeToManifest (jsKeyOf tyOpt) = none) :
    dispatch parse oracle now
      { method := "POST", path := "/simulator/v2/getComponentList",
        headers := hs, body := reqBody }
      = .ok (jsonRespStatus 400 (stringify invalidTypeEnvelope), []) := by
  rcases hbad with h | h <;>
    simp [dispatch, pparse, hparse, jsGetP, hty, hp, hps, h]

def c9wBody : Json := .obj [("type", .num 99)]

def c9wBodyStr : String := stringify c9wBody

/-- C9 witness: type 99 is rejected with the 400 envelope and no fetch. -/
theorem componentList_invalid_type_400_witness :
    tableParse [(c9wBodyStr, c9wBody)] ((some c9wBodyStr).getD "") = .ok c9wBody
    ∧ jsGet c9wBody "type" = .ok (some (.num 99))
    ∧ typeToManifest (jsKeyOf (some (.num 99))) = none
    ∧ dispatch (tableParse [(c9wBodyStr, c9wBody)])
        (constOracle { status := 200, headers := [], body := "" }) 0
        { method := "POST", path := "/simulator/v2/getComponentList",
          headers := [("Content-Type", "application/json")], body := some c9wBodyStr }
      = .ok (jsonRespStatus 400 (stringify invalidTypeEnvelope), []) := by
  refine ⟨by rfl, by rfl, by rfl, ?_⟩
  exact componentList_invalid_type_400 (tableParse [(c9wBodyStr, c9wBody)])
    (constOracle { status := 200, headers := [], body := "" }) 0
    [("Content-Type", "application/json")] (some c9wBodyStr) c9wBody
    (some (.num 99)) none none (by rfl) (by rfl) (by rfl) (by rfl)
    (Or.inr (by rfl))

/-! ## Shared helper lemmas about slices and field updates -/

theorem jsSliceList_length {α : Type} (xs : List α) (st s : Int)
    (hst : 0 ≤ st) (hs0 : 0 ≤ s) :
    (jsSliceList xs (some st) (some (st + s))).length
      = (min s (max 0 ((xs.length : Int) - st))).toNat := by
  simp only [jsSliceList, Option.getD]
  rw [if_neg (by omega), if_neg (by omega)]
  simp only [List.length_take, List.length_drop]
  omega

theorem setField_find_self (fs : List (String × Json)) (k : String) (v : Json) :
    (setField fs k v).find? (fun p => p.1 == k) = some (k, v) := by
  induction fs with
  | nil => simp [setField]
  | cons hd tl ih =>
    obtain ⟨k', w⟩ := hd
    by_cases h : k' = k
    · subst h; simp [setField]
    · simp [setField, h, List.find?, ih]

theorem setField_find_other (fs : List (String × Json)) (k k' : String) (v : Json)
    (h : k' ≠ k) :
    (setField fs k v).find? (fun p => p.1 == k') = fs.find? (fun p => p.1 == k') := by
  have hne : (k == k') = false := beq_eq_false_iff_ne.mpr (fun e => h e.symm)
  induction fs with
  | nil => simp [setField, List.find?, hne]
  | cons hd tl ih =>
    obtain ⟨k0, w⟩ := hd
    by_cases h0 : (k0 == k) = true
    · have hkk : k0 = k := by simpa using h0
      have hne0 : (k0 == k') = false := by rw [hkk]; exact hne
      simp [setField, h0, List.find?, hne, hne0]
    · have h0f : (k0 == k) = false := by simpa using h0
      simp [setField, h0f, List.find?, ih]

/-! ## C3: component-list pagination -/

/-- The manifest fetch the component-list handler issues. -/
def manifestCall (mpath : String) : FetchCall :=
  { url := GITHUB_BASE ++ mpath, method := "GET", headers := [], body := none }

def c3Body : Json := .obj [("type", .num 1), ("page", .num 1), ("page_size", .num 10)]

def c3BodyStr : String := stringify c3Body

def c3DataFields : List (String × Json) := [("list", .arr [.num 42]), ("total", .num 7)]

def c3Manifest : Json := .obj [("code", .num 200), ("data", .obj c3DataFields)]

def c3Result : Json :=
  .obj [("code", .num 200),
        ("data", .obj [("list", .arr [.num 42]), ("total", .num 7),
                       ("page", .num 1), ("pageSize", .num 10)])]

/-- C3 counterexample: a manifest whose data carries list of length 1
and a total field 7 is served with data.total equal to 7, not the
pre-slice length 1: the handler computes total as data.total when that
field is truthy and only falls back to the list length otherwise. -/
theorem componentList_total_not_length_cex :
    pipeline dummyMd5 (tableParse [(c3BodyStr, c3Body), ("M", c3Manifest)])
        (constOracle { status := 200, headers := [], body := "M" })
        none "https://token.example" 0
        { method := "POST", path := "/simulator/v2/getComponentList",
          headers := [("Content-Type", "application/json")], body := some c3BodyStr }
      = .ok (jsonResp (stringify c3Result), [manifestCall "/components/box64_manifest"])
    ∧ (objGet c3Result "data").map (fun d => objGet d "total")
        = some (some (.num 7))
    ∧ ((objGet c3Manifest "data").map (fun d => objGet d "list")
        = some (some (.arr [.num 42])))
    ∧ ([Json.num 42].length : Int) = 1
    ∧ (7 : Int) ≠ 1 := by
  refine ⟨by rfl, by rfl, by rfl, by rfl, by decide⟩

/-- C3 as amended: for every POST routed to
/simulator/v2/getComponentList with a valid type, numeric page p at
least 1 and numeric page_size s at least 1, when the fetched manifest
parses to an object whose data field is an object without a components
field and whose data.list is an array of length L, the handler returns
the manifest with data.list replaced by a slice of exactly
min(s, max(0, L-(p-1)*s)) items (out-of-range slices yield an empty or
partial list, not an error), and data.total set to the manifest's own
data.total when that value is truthy and to L otherwise (the claim's
statement that total always equals L fails when the manifest carries a
truthy total field). -/
theorem componentList_pagination_bounds (parse : String → Except String Json)
    (oracle : FetchCall → UpstreamResp) (now : Nat) (hdrs : HeaderList)
    (reqBody : Option String) (j ty : Json) (mpath : String) (p s : Int)
    (mfs dfs : List (String × Json)) (xs : List Json) (totalOpt : Option Json)
    (hparse : parse (reqBody.getD "") = .ok j)
    (hty : jsGet j "type" = .ok (some ty))
    (htruthy : truthy ty = true)
    (hmap : typeToManifest (jsToString ty) = some mpath)
    (hp : jsGet j "page" = .ok (some (.num p)))
    (hp1 : 1 ≤ p)
    (hps : jsGet j "page_size" = .ok (some (.num s)))
    (hs1 : 1 ≤ s)
    (hok : respOk (oracle (manifestCall mpath)) = true)
    (hmparse : parse (oracle (manifestCall mpath)).body = .ok (.obj mfs))
    (hdata : jsGet (.obj mfs) "data" = .ok (some (.obj dfs)))
    (hcomp : jsGet (.obj dfs) "components" = .ok none)
    (hlist : jsGet (.obj dfs) "list" = .ok (some (.arr xs)))
    (htot : jsGet (.obj dfs) "total" = .ok totalOpt) :
    ∃ resData : List (String × Json),
      dispatch parse oracle now
        { method := "POST", path := "/simulator/v2/getComponentList",
          headers := hdrs, body := reqBody }
        = .ok (jsonResp (stringify (.obj (setField mfs "data" (.obj resData)))),
               [manifestCall mpath])
      ∧ objGet (.obj (setField mfs "data" (.obj resData))) "data" = some (.obj resData)
      ∧ (∃ l, objGet (.obj resData) "list" = some (.arr l) ∧
            l.length = (min s (max 0 ((xs.length : Int) - (p - 1) * s))).toNat)
      ∧ objGet (.obj resData) "total"
          = some (if truthyOpt totalOpt then totalOpt.getD .null else .num xs.length) := by
  have hpne : (p != 0) = true := by simp; omega
  have hsne : (s != 0) = true := by simp; omega
  refine ⟨setField (setField (setField
      (setField dfs "list" (.arr (jsSliceList xs (some ((p - 1) * s)) (some ((p - 1) * s + s)))))
      "page" (.num p)) "pageSize" (.num s)) "total"
      (if truthyOpt totalOpt then totalOpt.getD .null else .num xs.length), ?_, ?_, ?_, ?_⟩
  · simp only [manifestCall] at hok hmparse
    simp [dispatch, pparse, hparse, jsGetP, hty, hp, hps, manifestCall, jsKeyOf,
      hmap, hok, hmparse, hdata, hcomp, hlist, htot, jsSetP, jsSet, jsOr,
      hpne, hsne, htruthy, asNum, jsLength, jsSliceP, jsSliceVal]
    cases h : truthyOpt totalOpt <;> simp [h]
  · simp only [objGet, setField_find_self, Option.map_some']
  · exact ⟨_, by
      simp only [objGet]
      rw [setField_find_other _ _ _ _ (by decide), setField_find_other _ _ _ _ (by decide),
          setField_find_other _ _ _ _ (by decide), setField_find_self]
      simp, jsSliceList_length xs _ _ (mul_nonneg (by omega) (by omega)) (by omega)⟩
  · simp only [objGet, setField_find_self, Option.map_some']

/-- C3 witness: page 1, page size 10 over a one-element list with a
truthy total field 7: the slice keeps min(10, max(0, 1-0)) = 1 item. -/
theorem componentList_pagination_bounds_witness :
    truthy (Json.num 1) = true
    ∧ typeToManifest (jsToString (Json.num 1)) = some "/components/box64_manifest"
    ∧ respOk (constOracle { status := 200, headers := [], body := "M" }
        (manifestCall "/components/box64_manifest")) = true
    ∧ (∃ resData : List (String × Json),
        dispatch (tableParse [(c3BodyStr, c3Body), ("M", c3Manifest)])
          (constOracle { status := 200, headers := [], body := "M" }) 0
          { method := "POST", path := "/simulator/v2/getComponentList",
            headers := [("Content-Type", "application/json")], body := some c3BodyStr }
          = .ok (jsonResp (stringify (.obj (setField [("code", Json.num 200), ("data", .obj c3DataFields)] "data" (.obj resData)))),
                 [manifestCall "/components/box64_manifest"])
        ∧ objGet (.obj (setField [("code", Json.num 200), ("data", .obj c3DataFields)] "data" (.obj resData))) "data" = some (.obj resData)
        ∧ (∃ l, objGet (.obj resData) "list" = some (.arr l) ∧
              l.length = (min 10 (max 0 (([Json.num 42].length : Int) - (1 - 1) * 10))).toNat)
        ∧ objGet (.obj resData) "total"
            = some (if truthyOpt (some (.num 7)) then (some (Json.num 7)).getD .null
                    else .num [Json.num 42].length)) := by
  refine ⟨by rfl, by rfl, by rfl, ?_⟩
  exact componentList_pagination_bounds
    (tableParse [(c3BodyStr, c3Body), ("M", c3Manifest)])
    (constOracle { status := 200, headers := [], body := "M" }) 0
    [("Content-Type", "application/json")] (some c3BodyStr)
    c3Body (.num 1) "/components/box64_manifest" 1 10
    [("code", .num 200), ("data", .obj c3DataFields)] c3DataFields
    [.num 42] (some (.num 7))
    (by rfl) (by rfl) (by rfl) (by rfl) (by rfl) (by decide) (by rfl) (by decide)
    (by rfl) (by rfl) (by rfl) (by rfl) (by rfl) (by rfl)

/-! ## C4: signature determinism and order independence -/

theorem find_eq_of_perm (k : String) :
    ∀ {l1 l2 : List (String × Json)}, l1.Perm l2 →
      (l1.map Prod.fst).Nodup →
      l1.find? (fun p => p.1 == k) = l2.find? (fun p => p.1 == k) := by
  intro l1 l2 hp
  induction hp with
  | nil => intro _; rfl
  | cons x hp ih =>
    intro hn
    rw [List.map_cons, List.nodup_cons] at hn
    obtain ⟨_, hn'⟩ := hn
    cases hx : (x.1 == k) <;> simp [List.find?, hx, ih hn']
  | swap x y l =>
    intro hn
    rw [List.map_cons, List.map_cons, List.nodup_cons] at hn
    obtain ⟨hy1, _⟩ := hn
    have hyx : y.1 ≠ x.1 := fun e => hy1 (by simp [e])
    cases hx : (x.1 == k) <;> cases hy : (y.1 == k)
    · simp [List.find?, hx, hy]
    · simp [List.find?, hx, hy]
    · simp [List.find?, hx, hy]
    · exact absurd ((eq_of_beq hy).trans (eq_of_beq hx).symm) hyx
  | trans h12 h23 ih1 ih2 =>
    intro hn
    exact (ih1 hn).trans (ih2 ((h12.map Prod.fst).nodup hn))

theorem find_eq_some_of_mem_nodup :
    ∀ {l : List (String × Json)} {p : String × Json}, p ∈ l →
      (l.map Prod.fst).Nodup →
      l.find? (fun q => q.1 == p.1) = some p := by
  intro l
  induction l with
  | nil => intro p hp; simp at hp
  | cons hd tl ih =>
    intro p hp hn
    rw [List.map_cons, List.nodup_cons] at hn
    obtain ⟨h1, hn'⟩ := hn
    rcases List.mem_cons.mp hp with rfl | hmem
    · simp [List.find?]
    · have hne : (hd.1 == p.1) = false := by
        refine beq_eq_false_iff_ne.mpr (fun e => ?_)
        exact h1 (by simpa [e] using List.mem_map_of_mem Prod.fst hmem)
      simp [List.find?, hne, ih hmem hn']

/-- Ordering of key-value pairs by key. -/
def keyLe (a b : String × Json) : Prop := a.1 ≤ b.1

instance : DecidableRel keyLe := fun a b => inferInstanceAs (Decidable (a.1 ≤ b.1))

instance : IsTotal (String × Json) keyLe := ⟨fun a b => le_total a.1 b.1⟩

instance : IsTrans (String × Json) keyLe := ⟨fun _ _ _ h1 h2 => le_trans h1 h2⟩

instance : IsTotal (String × Json) (fun a b : String × Json => a.1 ≤ b.1) :=
  ⟨fun a b => le_total a.1 b.1⟩

instance : IsTrans (String × Json) (fun a b : String × Json => a.1 ≤ b.1) :=
  ⟨fun _ _ _ h1 h2 => le_trans h1 h2⟩

/-- The signature base string as the specification words it: take the
key-value pairs of the object other than the key sign, sort them by key
lexicographically, join them as key=value with ampersands, and append
the shared secret. -/
def specSignString (params : List (String × Json)) : String :=
  String.intercalate "&"
    ((List.insertionSort keyLe (params.filter (fun p => p.1 ≠ "sign"))).map
      (fun p => p.1 ++ "=" ++ jsToString p.2)) ++ "&" ++ GAMEHUB_SECRET_KEY

theorem sortPairs_keys (l : List (String × Json)) :
    (List.insertionSort keyLe (l.filter (fun p => p.1 ≠ "sign"))).map Prod.fst
      = List.insertionSort (fun a b : String => a ≤ b)
          ((l.map Prod.fst).filter (fun k => k ≠ "sign")) := by
  have hs1 : List.Sorted (fun a b : String => a ≤ b)
      ((List.insertionSort keyLe (l.filter (fun p => p.1 ≠ "sign"))).map Prod.fst) :=
    List.Pairwise.map _ (fun a b hab => hab) (List.sorted_insertionSort _ _)
  have hs2 : List.Sorted (fun a b : String => a ≤ b)
      (List.insertionSort (fun a b : String => a ≤ b)
        ((l.map Prod.fst).filter (fun k => k ≠ "sign"))) :=
    List.sorted_insertionSort _ _
  have heq : (l.filter (fun p => p.1 ≠ "sign")).map Prod.fst
      = (l.map Prod.fst).filter (fun k => k ≠ "sign") := by
    rw [List.filter_map]; rfl
  have hperm : ((List.insertionSort keyLe (l.filter (fun p => p.1 ≠ "sign"))).map Prod.fst).Perm
      (List.insertionSort (fun a b : String => a ≤ b)
        ((l.map Prod.fst).filter (fun k => k ≠ "sign"))) := by
    refine ((List.perm_insertionSort _ _).map _).trans ?_
    rw [heq]
    exact (List.perm_insertionSort _ _).symm
  exact List.eq_of_perm_of_sorted hperm hs1 hs2

/-- For an object with pairwise-distinct keys, the base string built by
the source (sort the keys, then look each value up) equals the base
string described by the spec (sort the pairs by key, then print them). -/
theorem signBase_eq_spec (l : List (String × Json))
    (hn : (l.map Prod.fst).Nodup) : signBase l = specSignString l := by
  have h :
      (List.insertionSort (fun a b : String => a ≤ b)
          ((l.map Prod.fst).filter (fun k => k ≠ "sign"))).map
        (fun k => k ++ "=" ++ lookupStr l k)
      = (List.insertionSort keyLe (l.filter (fun p => p.1 ≠ "sign"))).map
          (fun p => p.1 ++ "=" ++ jsToString p.2) := by
    rw [← sortPairs_keys, List.map_map]
    refine List.map_congr_left (fun p hp => ?_)
    have hmem : p ∈ l :=
      List.mem_of_mem_filter ((List.perm_insertionSort _ _).mem_iff.mp hp)
    have hfind := find_eq_some_of_mem_nodup hmem hn
    simp [Function.comp, lookupStr, hfind]
  simp only [signBase, specSignString]
  rw [h]

/-- C4: the signature is deterministic and order-independent: for every
flat object with pairwise-distinct keys, permuting the insertion order
of its key-value pairs yields the same signature, and the signature is
the lower-cased digest of the lexicographically key-sorted,
ampersand-joined key=value pairs (excluding the key sign) with the
shared secret appended.  The digest itself comes from md5.js, which is
not among the sources, so the theorem quantifies over every digest
function; the actual md5 renders as hexadecimal, which lower-casing then
makes the claimed lowercase hex form. -/
theorem generateSignature_order_independent (md5 : String → String)
    (l1 l2 : List (String × Json))
    (hperm : l1.Perm l2) (hn : (l1.map Prod.fst).Nodup) :
    generateSignature md5 l1 = generateSignature md5 l2
    ∧ generateSignature md5 l1 = lowerStr (md5 (specSignString l1)) := by
  have hlookup : ∀ k, lookupStr l1 k = lookupStr l2 k := by
    intro k; unfold lookupStr; rw [find_eq_of_perm k hperm hn]
  have hkeys : List.insertionSort (fun a b : String => a ≤ b)
        ((l1.map Prod.fst).filter (fun k => k ≠ "sign"))
      = List.insertionSort (fun a b : String => a ≤ b)
        ((l2.map Prod.fst).filter (fun k => k ≠ "sign")) := by
    refine List.eq_of_perm_of_sorted ?_
      (List.sorted_insertionSort _ _) (List.sorted_insertionSort _ _)
    refine (List.perm_insertionSort _ _).trans
      (List.Perm.trans ?_ (List.perm_insertionSort _ _).symm)
    exact (hperm.map Prod.fst).filter _
  have hbase : signBase l1 = signBase l2 := by
    simp only [signBase]
    rw [hkeys]
    rw [List.map_congr_left (fun k _ => by rw [hlookup k] :
      ∀ k ∈ List.insertionSort (fun a b : String => a ≤ b)
        ((l2.map Prod.fst).filter (fun x => x ≠ "sign")),
        k ++ "=" ++ lookupStr l1 k = k ++ "=" ++ lookupStr l2 k)]
  constructor
  · simp only [generateSignature, hbase]
  · simp only [generateSignature]
    rw [signBase_eq_spec l1 hn]

/-- C4 witness: swapping two fields of a two-field object leaves the
signature unchanged and the signature matches the spec-shaped base. -/
theorem generateSignature_order_independent_witness :
    ([("b", Json.str "2"), ("a", Json.str "1")] : List (String × Json)).Perm
        [("a", Json.str "1"), ("b", Json.str "2")]
    ∧ ([("b", Json.str "2"), ("a", Json.str "1")].map Prod.fst).Nodup
    ∧ (generateSignature dummyMd5 [("b", Json.str "2"), ("a", Json.str "1")]
        = generateSignature dummyMd5 [("a", Json.str "1"), ("b", Json.str "2")]
      ∧ generateSignature dummyMd5 [("b", Json.str "2"), ("a", Json.str "1")]
        = lowerStr (dummyMd5 (specSignString [("b", Json.str "2"), ("a", Json.str "1")]))) :=
  ⟨List.Perm.swap _ _ _, by decide,
   generateSignature_order_independent dummyMd5 _ _ (List.Perm.swap _ _ _) (by decide)⟩

/-! ## C6: no sentinel, no rewrite, no lookup -/

/-- C6: for every inbound request in which the sentinel appears in none
of the three checked locations (the Authorization header does not
contain it, the token header does not equal it, and the inspected JSON
POST body text does not contain it), detection stays negative, the
interception stage returns the inbound request itself with an empty
fetch log whatever the oracles and cache hold (so no credential lookup
can influence anything), and the request handed to dispatch is the
inbound request, byte for byte. -/
theorem no_sentinel_request_unchanged (md5 : String → String)
    (parse : String → Except String Json) (oracle : FetchCall → UpstreamResp)
    (tokenCache : Option String) (envTokenUrl : String) (req : HttpRequest)
    (hauth : ∀ a, hGet req.headers "Authorization" = some a →
      strIncludes a "fake-token" = false)
    (htok : hGet req.headers "token" ≠ some "fake-token")
    (hbody : strIncludes (bodyTextOf req) "fake-token" = false) :
    shouldReplaceToken req = false
    ∧ interceptToken md5 parse oracle tokenCache envTokenUrl req = .ok (req, [])
    ∧ ∀ now, pipeline md5 parse oracle tokenCache envTokenUrl now req
        = dispatch parse oracle now req := by
  have hsr : shouldReplaceToken req = false := by
    unfold shouldReplaceToken
    cases hA : hGet req.headers "Authorization" with
    | none => simp [hbody, beq_eq_false_iff_ne.mpr htok]
    | some a => simp [hauth a hA, hbody, beq_eq_false_iff_ne.mpr htok]
  refine ⟨hsr, ?_, ?_⟩
  · simp [interceptToken, hsr]
  · intro now
    simp [pipeline, interceptToken, hsr]

/-- C6 witness: a sentinel-free GET request flows through untouched. -/
theorem no_sentinel_request_unchanged_witness :
    shouldReplaceToken
      { method := "GET", path := "/foo/bar", headers := [], body := none } = false
    ∧ interceptToken dummyMd5 (tableParse [])
        (constOracle { status := 200, headers := [], body := "" })
        none "https://token.example"
        { method := "GET", path := "/foo/bar", headers := [], body := none }
      = .ok ({ method := "GET", path := "/foo/bar", headers := [], body := none }, [])
    ∧ ∀ now, pipeline dummyMd5 (tableParse [])
        (constOracle { status := 200, headers := [], body := "" })
        none "https://token.example" now
        { method := "GET", path := "/foo/bar", headers := [], body := none }
      = dispatch (tableParse []) (constOracle { status := 200, headers := [], body := "" }) now
        { method := "GET", path := "/foo/bar", headers := [], body := none } :=
  no_sentinel_request_unchanged dummyMd5 (tableParse [])
    (constOracle { status := 200, headers := [], body := "" }) none "https://token.example"
    { method := "GET", path := "/foo/bar", headers := [], body := none }
    (fun _ ha => Option.noConfusion ha)
    (fun h => Option.noConfusion h)
    (by rfl)

/-! ## C7: the catch-all error boundary -/

/-- C7: for every non-OPTIONS request, whenever any step of the
pipeline (token interception, routing, a handler or the fallback proxy)
throws with message e, the worker responds 500 with the body
code 500, msg "Error: e", Content-Type application/json and the CORS
headers. -/
theorem pipeline_error_500_envelope (md5 : String → String)
    (parse : String → Except String Json) (oracle : FetchCall → UpstreamResp)
    (tokenCache : Option String) (envTokenUrl : String) (now : Nat)
    (req : HttpRequest) (e : String)
    (hopt : req.method ≠ "OPTIONS")
    (herr : pipeline md5 parse oracle tokenCache envTokenUrl now req = .error e) :
    workerFetch md5 parse oracle tokenCache envTokenUrl now req
      = { status := 500, headers := jsonCors,
          body := some (stringify (errorEnvelope e)) } := by
  simp [workerFetch, beq_eq_false_iff_ne.mpr hopt, herr]

/-- C7 witness: an unparseable JSON body on a JSON route throws inside
the handler and surfaces as the 500 error envelope with the parse
error's message. -/
theorem pipeline_error_500_envelope_witness :
    ("POST" : String) ≠ "OPTIONS"
    ∧ pipeline dummyMd5 (tableParse [])
        (constOracle { status := 200, headers := [], body := "" })
        none "https://token.example" 0
        { method := "POST", path := "/card/getNewsList",
          headers := [("Content-Type", "application/json")], body := some "not json" }
      = .error "Unexpected token not json"
    ∧ workerFetch dummyMd5 (tableParse [])
        (constOracle { status := 200, headers := [], body := "" })
        none "https://token.example" 0
        { method := "POST", path := "/card/getNewsList",
          headers := [("Content-Type", "application/json")], body := some "not json" }
      = { status := 500, headers := jsonCors,
          body := some (stringify (errorEnvelope "Unexpected token not json")) } :=
  ⟨by decide, by rfl,
   pipeline_error_500_envelope dummyMd5 (tableParse [])
     (constOracle { status := 200, headers := [], body := "" }) none "https://token.example" 0
     { method := "POST", path := "/card/getNewsList",
       headers := [("Content-Type", "application/json")], body := some "not json" }
     "Unexpected token not json" (by decide) (by rfl)⟩

/-! ## C2: header-only substitution and the request body -/

/-- C2 counterexample: a POST with Content-Type text/plain, body hello
and the sentinel in the token header.  Detection fires via the header
and a real credential is obtained from the cache, the body does not
contain the sentinel, yet the rewritten request is built with no body at
all (the inspected body text is empty because the request is not a JSON
POST), dropping the original body hello. -/
theorem intercept_nonjson_body_dropped_cex :
    interceptToken dummyMd5 (tableParse [("C", .obj [("token", .str "real")])])
        (constOracle { status := 200, headers := [], body := "" })
        (some "C") "https://token.example"
        { method := "POST", path := "/anything",
          headers := [("token", "fake-token"), ("Content-Type", "text/plain")],
          body := some "hello" }
      = .ok ({ method := "POST", path := "/anything",
               headers := [("token", "real"), ("Content-Type", "text/plain")],
               body := none }, [])
    ∧ (none : Option String) ≠ some "hello" := by
  refine ⟨by rfl, by decide⟩

/-- C2 as amended: whenever the sentinel was detected, a truthy real
credential was obtained, and the body does not contain the sentinel
(only a header matched), the rewritten request keeps the method, path
and original body and only the headers are replaced, provided the
request either has no body or is a JSON POST with a non-empty body; a
non-JSON request with a body instead has its body dropped (see the
counterexample). -/
theorem intercept_header_only_body_preserved (md5 : String → String)
    (parse : String → Except String Json) (oracle : FetchCall → UpstreamResp)
    (tokenCache : Option String) (envTokenUrl : String) (req : HttpRequest)
    (t : Json) (tlog : List FetchCall)
    (hdet : shouldReplaceToken req = true)
    (hrt : getRealToken parse oracle tokenCache envTokenUrl = .ok (some t, tlog))
    (htruthy : truthy t = true)
    (hbody : strIncludes (req.body.getD "") "fake-token" = false)
    (hok : req.body = none
      ∨ (req.method = "POST" ∧ ctIncludesJson req = true ∧ req.body ≠ some "")) :
    interceptToken md5 parse oracle tokenCache envTokenUrl req
      = .ok ({ method := req.method, path := req.path,
               headers := interceptHeaders req (jsToString t),
               body := req.body }, tlog) := by
  cases hb : req.body with
  | none =>
    have hbt : bodyTextOf req = "" := by
      unfold bodyTextOf
      rw [hb]
      simp
    simp [interceptToken, hdet, hrt, htruthy, hbt]
  | some bt =>
    rcases hok with hnone | ⟨hpost, hct, hne⟩
    · rw [hb] at hnone; exact Option.noConfusion hnone
    · have hbtne : bt ≠ "" := by
        intro e; rw [hb, e] at hne; exact hne rfl
      have hbt : bodyTextOf req = bt := by
        unfold bodyTextOf
        rw [hb, hpost, hct]
        simp
      have hinc : strIncludes bt "fake-token" = false := by
        rw [hb] at hbody; simpa using hbody
      simp [interceptToken, hdet, hrt, htruthy, hbt, hinc, hbtne]

def c2wBodyStr : String := stringify (Json.obj [("page", .num 1)])

def c2wReq : HttpRequest :=
  { method := "POST", path := "/card/getNewsList",
    headers := [("token", "fake-token"), ("Content-Type", "application/json")],
    body := some c2wBodyStr }

/-- C2 witness: a JSON POST whose token header holds the sentinel and
whose body does not: the body is forwarded unchanged, the headers are
rewritten. -/
theorem intercept_header_only_body_preserved_witness :
    shouldReplaceToken c2wReq = true
    ∧ getRealToken (tableParse [("C", .obj [("token", .str "realtok")])])
        (constOracle { status := 200, headers := [], body := "" })
        (some "C") "https://token.example"
      = .ok (some (.str "realtok"), [])
    ∧ truthy (.str "realtok") = true
    ∧ strIncludes (c2wReq.body.getD "") "fake-token" = false
    ∧ interceptToken dummyMd5 (tableParse [("C", .obj [("token", .str "realtok")])])
        (constOracle { status := 200, headers := [], body := "" })
        (some "C") "https://token.example" c2wReq
      = .ok ({ method := c2wReq.method, path := c2wReq.path,
               headers := interceptHeaders c2wReq (jsToString (.str "realtok")),
               body := c2wReq.body }, []) := by
  refine ⟨by rfl, by rfl, by rfl, by rfl, ?_⟩
  exact intercept_header_only_body_preserved dummyMd5
    (tableParse [("C", .obj [("token", .str "realtok")])])
    (constOracle { status := 200, headers := [], body := "" })
    (some "C") "https://token.example" c2wReq (.str "realtok") []
    (by rfl) (by rfl) (by rfl) (by rfl)
    (Or.inr ⟨rfl, by rfl, by decide⟩)

/-! ## C5: executeScript fingerprint sanitization -/

/-- The upstream call of the executeScript handler for a given
sanitized field list. -/
def execScriptCall (fs : List (String × Option Json)) : FetchCall :=
  { url := "https://landscape-api.vgabc.com/simulator/executeScript",
    method := "POST", headers := [("Content-Type", "application/json")],
    body := some (stringifyUndefObj fs) }

/-- The sanitized body built from the empty input object: the four
input-derived fields read as undefined (game_type falls back to 2). -/
def c5Fields : List (String × Option Json) :=
  [("gpu_vendor", none),
   ("gpu_version", some (.num 0)),
   ("gpu_device_name", some (.str "Generic Device")),
   ("game_type", some (.num 2)),
   ("token", none),
   ("game_id", some (.str "0")),
   ("sign", none),
   ("time", none),
   ("clientparams", some (.str "5.1.0|0|en|Generic|1920*1080|app|app|generic|||||||||com.app|Generic|generic")),
   ("gpu_system_driver_version", some (.num 0))]

set_option maxRecDepth 4096 in
/-- C5 counterexample: for the input body without the expected fields,
the forwarded body does NOT contain the whole fixed sanitized field set:
JSON.stringify omits the undefined-valued properties, so gpu_vendor,
token, sign and time are missing from the outbound payload. -/
theorem executeScript_missing_fields_omitted_cex :
    sanitizeExecBody (.obj []) = .ok c5Fields
    ∧ pipeline dummyMd5
        (tableParse [(emptyObjStr, .obj []), ("R", .obj [("ok", .num 1)])])
        (constOracle { status := 200, headers := [], body := "R" })
        none "https://token.example" 0
        { method := "POST", path := "/simulator/executeScript",
          headers := [("Content-Type", "application/json")], body := some emptyObjStr }
      = .ok (jsonResp (stringify (.obj [("ok", .num 1)])), [execScriptCall c5Fields])
    ∧ strIncludes (stringifyUndefObj c5Fields) "\"gpu_vendor\"" = false
    ∧ strIncludes (stringifyUndefObj c5Fields) "\"token\"" = false
    ∧ strIncludes (stringifyUndefObj c5Fields) "\"sign\"" = false
    ∧ strIncludes (stringifyUndefObj c5Fields) "\"time\"" = false := by
  refine ⟨by rfl, by rfl, by rfl, by rfl, by rfl, by rfl⟩

theorem sanitizeExecBody_congr (j1 j2 : Json)
    (h1 : jsGet j1 "gpu_vendor" = jsGet j2 "gpu_vendor")
    (h2 : jsGet j1 "game_type" = jsGet j2 "game_type")
    (h3 : jsGet j1 "token" = jsGet j2 "token")
    (h4 : jsGet j1 "sign" = jsGet j2 "sign")
    (h5 : jsGet j1 "time" = jsGet j2 "time") :
    sanitizeExecBody j1 = sanitizeExecBody j2 := by
  unfold sanitizeExecBody
  simp only [h1, h2, h3, h4, h5]

/-- C5 as amended: the executeScript handler forwards exactly the
sanitized field list built from the parsed body: its keys are precisely
the fixed ten (the serialized body omits those of gpu_vendor, token,
sign and time whose input values are undefined, see the counterexample),
and any two parsed bodies that agree on gpu_vendor, game_type, token,
sign and time produce byte-identical forwarded bodies, so no stripped
field ever appears in, or influences, the outbound payload. -/
theorem executeScript_sanitized_fields (parse : String → Except String Json)
    (oracle : FetchCall → UpstreamResp) (now : Nat) (hdrs : HeaderList)
    (reqBody : Option String) (j : Json) (fs : List (String × Option Json))
    (respJson : Json)
    (hparse : parse (reqBody.getD "") = .ok j)
    (hsan : sanitizeExecBody j = .ok fs)
    (hrparse : parse (oracle (execScriptCall fs)).body = .ok respJson) :
    dispatch parse oracle now
      { method := "POST", path := "/simulator/executeScript",
        headers := hdrs, body := reqBody }
      = .ok (jsonResp (stringify respJson), [execScriptCall fs])
    ∧ fs.map Prod.fst
        = ["gpu_vendor", "gpu_version", "gpu_device_name", "game_type", "token",
           "game_id", "sign", "time", "clientparams", "gpu_system_driver_version"]
    ∧ ∀ j2 fs2, sanitizeExecBody j2 = .ok fs2 →
        jsGet j2 "gpu_vendor" = jsGet j "gpu_vendor" →
        jsGet j2 "game_type" = jsGet j "game_type" →
        jsGet j2 "token" = jsGet j "token" →
        jsGet j2 "sign" = jsGet j "sign" →
        jsGet j2 "time" = jsGet j "time" →
        stringifyUndefObj fs2 = stringifyUndefObj fs := by
  refine ⟨?_, ?_, ?_⟩
  · simp only [execScriptCall] at hrparse
    simp [dispatch, pparse, hparse, sanitizeExecBodyP, hsan, execScriptCall, hrparse]
  · rcases hgv : jsGet j "gpu_vendor" with e | gv <;>
      rcases hgt : jsGet j "game_type" with e | gt <;>
        rcases htk : jsGet j "token" with e | tk <;>
          rcases hsg : jsGet j "sign" with e | sg <;>
            rcases htm : jsGet j "time" with e | tm <;>
              rw [sanitizeExecBody, hgv, hgt, htk, hsg, htm] at hsan <;>
                simp at hsan <;> simp [← hsan]
  · intro j2 fs2 hsan2 e1 e2 e3 e4 e5
    rw [sanitizeExecBody_congr j2 j e1 e2 e3 e4 e5, hsan] at hsan2
    cases hsan2
    rfl

def c5wBody : Json :=
  .obj [("gpu_vendor", .num 1), ("game_type", .num 2), ("token", .str "t"),
        ("sign", .str "s"), ("time", .num 3), ("device_model", .str "Pixel 9")]

def c5wBodyStr : String := stringify c5wBody

def c5wFields : List (String × Option Json) :=
  [("gpu_vendor", some (.num 1)),
   ("gpu_version", some (.num 0)),
   ("gpu_device_name", some (.str "Generic Device")),
   ("game_type", some (.num 2)),
   ("token", some (.str "t")),
   ("game_id", some (.str "0")),
   ("sign", some (.str "s")),
   ("time", some (.num 3)),
   ("clientparams", some (.str "5.1.0|0|en|Generic|1920*1080|app|app|generic|||||||||com.app|Generic|generic")),
   ("gpu_system_driver_version", some (.num 0))]

/-- C5 witness: a body carrying an extra identifying field device_model
is forwarded as exactly the ten sanitized fields. -/
theorem executeScript_sanitized_fields_witness :
    sanitizeExecBody c5wBody = .ok c5wFields
    ∧ (dispatch (tableParse [(c5wBodyStr, c5wBody), ("R", .obj [("ok", .num 1)])])
        (constOracle { status := 200, headers := [], body := "R" }) 0
        { method := "POST", path := "/simulator/executeScript",
          headers := [("Content-Type", "application/json")], body := some c5wBodyStr }
        = .ok (jsonResp (stringify (.obj [("ok", .num 1)])), [execScriptCall c5wFields])
      ∧ c5wFields.map Prod.fst
          = ["gpu_vendor", "gpu_version", "gpu_device_name", "game_type", "token",
             "game_id", "sign", "time", "clientparams", "gpu_system_driver_version"]
      ∧ ∀ j2 fs2, sanitizeExecBody j2 = .ok fs2 →
          jsGet j2 "gpu_vendor" = jsGet c5wBody "gpu_vendor" →
          jsGet j2 "game_type" = jsGet c5wBody "game_type" →
          jsGet j2 "token" = jsGet c5wBody "token" →
          jsGet j2 "sign" = jsGet c5wBody "sign" →
          jsGet j2 "time" = jsGet c5wBody "time" →
          stringifyUndefObj fs2 = stringifyUndefObj c5wFields) :=
  ⟨by rfl,
   executeScript_sanitized_fields
     (tableParse [(c5wBodyStr, c5wBody), ("R", .obj [("ok", .num 1)])])
     (constOracle { status := 200, headers := [], body := "R" }) 0
     [("Content-Type", "application/json")] (some c5wBodyStr) c5wBody c5wFields
     (.obj [("ok", .num 1)]) (by rfl) (by rfl) (by rfl)⟩

/-! ## C8: the fallback proxy -/

theorem setPairField_find_self (fs : List (String × String)) (k v : String) :
    (setPairField fs k v).find? (fun p => p.1 == k) = some (k, v) := by
  induction fs with
  | nil => simp [setPairField]
  | cons hd tl ih =>
    obtain ⟨k', w⟩ := hd
    by_cases h : k' = k
    · subst h; simp [setPairField]
    · simp [setPairField, h, List.find?, ih]

theorem setPairField_find_other (fs : List (String × String)) (k k' v : String)
    (h : k' ≠ k) :
    (setPairField fs k v).find? (fun p => p.1 == k') = fs.find? (fun p => p.1 == k') := by
  have hne : (k == k') = false := beq_eq_false_iff_ne.mpr (fun e => h e.symm)
  induction fs with
  | nil => simp [setPairField, List.find?, hne]
  | cons hd tl ih =>
    obtain ⟨k0, w⟩ := hd
    by_cases h0 : (k0 == k) = true
    · have hkk : k0 = k := by simpa using h0
      have hne0 : (k0 == k') = false := by rw [hkk]; exact hne
      simp [setPairField, h0, List.find?, hne, hne0]
    · have h0f : (k0 == k) = false := by simpa using h0
      simp [setPairField, h0f, List.find?, ih]

/-- The single fetch the fallback proxy issues. -/
def fallbackCall (path : String) : FetchCall :=
  { url := GITHUB_BASE ++ path, method := "GET", headers := [], body := none }

def c8cexReq : HttpRequest :=
  { method := "POST", path := "/foo/bar",
    headers := [("token", "fake-token"), ("Content-Type", "application/json")],
    body := some "fake-token-bad-json" }

/-- C8 counterexample: an unmatched-path request that carries the
sentinel in its token header and an unparseable JSON body never reaches
the fallback proxy: the interception stage throws while re-signing the
body, no fetch at all is issued (in particular not exactly one fetch to
the static repository), and the response is the 500 error envelope
instead of a mirror of the upstream, which would have answered 200. -/
theorem fallback_sentinel_breaks_proxy_cex :
    matchesRoute c8cexReq = false
    ∧ pipeline dummyMd5 (tableParse [("C", .obj [("token", .str "tkn")])])
        (constOracle { status := 200, headers := [("cache-control", "no-store")], body := "UP" })
        (some "C") "https://token.example" 0 c8cexReq
      = .error "Unexpected token fake-token-bad-json"
    ∧ workerFetch dummyMd5 (tableParse [("C", .obj [("token", .str "tkn")])])
        (constOracle { status := 200, headers := [("cache-control", "no-store")], body := "UP" })
        (some "C") "https://token.example" 0 c8cexReq
      = { status := 500, headers := jsonCors,
          body := some (stringify (errorEnvelope "Unexpected token fake-token-bad-json")) }
    ∧ (500 : Nat) ≠ 200 := by
  refine ⟨by rfl, by rfl, by rfl, by decide⟩

/-- C8 as amended: for every sentinel-free non-OPTIONS request whose
method and path match no route, the pipeline issues exactly one fetch,
to the static repository base joined with the original path, and the
worker responds with the upstream status and body, the upstream headers
turned into a record and overlaid with the CORS headers and a
Cache-Control entry forced to public, max-age=300 (record-level exact
keys: the forced entry wins over any upstream entry under the exact key
Cache-Control, while a differently-cased upstream header keeps its own
entry).  Requests carrying the sentinel can instead fetch a token or
throw before the fallback runs (see the counterexample). -/
theorem fallback_proxy_mirrors_upstream (md5 : String → String)
    (parse : String → Except String Json) (oracle : FetchCall → UpstreamResp)
    (tokenCache : Option String) (envTokenUrl : String) (now : Nat)
    (req : HttpRequest)
    (hnos : shouldReplaceToken req = false)
    (hroute : matchesRoute req = false)
    (hopt : req.method ≠ "OPTIONS") :
    pipeline md5 parse oracle tokenCache envTokenUrl now req
      = .ok ({ status := (oracle (fallbackCall req.path)).status,
               headers := fallbackHeaders (oracle (fallbackCall req.path)).headers,
               body := some (oracle (fallbackCall req.path)).body },
             [fallbackCall req.path])
    ∧ workerFetch md5 parse oracle tokenCache envTokenUrl now req
      = { status := (oracle (fallbackCall req.path)).status,
          headers := fallbackHeaders (oracle (fallbackCall req.path)).headers,
          body := some (oracle (fallbackCall req.path)).body }
    ∧ recordGet (fallbackHeaders (oracle (fallbackCall req.path)).headers)
        "Cache-Control" = some "public, max-age=300"
    ∧ recordGet (fallbackHeaders (oracle (fallbackCall req.path)).headers)
        "Access-Control-Allow-Origin" = some "*" := by
  simp only [matchesRoute, Bool.or_eq_false_iff] at hroute
  obtain ⟨⟨⟨⟨⟨⟨⟨⟨⟨h1, h2⟩, h3⟩, h4⟩, h5⟩, h6⟩, h7⟩, h8⟩, h9⟩, h10⟩ := hroute
  have hpipe : pipeline md5 parse oracle tokenCache envTokenUrl now req
      = .ok ({ status := (oracle (fallbackCall req.path)).status,
               headers := fallbackHeaders (oracle (fallbackCall req.path)).headers,
               body := some (oracle (fallbackCall req.path)).body },
             [fallbackCall req.path]) := by
    simp only [Bool.and_eq_false_iff] at h1 h2 h3 h4 h5 h6 h7 h8 h9 h10
    have mk : ∀ {a x b y : String}, ((a == x) = false ∨ (b == y) = false) →
        ¬(a = x ∧ b = y) := by
      intro a x b y h he
      obtain ⟨e1, e2⟩ := he
      rcases h with h | h
      · exact absurd e1 (by simpa using h)
      · exact absurd e2 (by simpa using h)
    simp [pipeline, interceptToken, hnos, dispatch, fallbackCall, fallbackHeaders,
      mk h1, mk h2, mk h3, mk h4, mk h5, mk h6, mk h7, mk h8, mk h9, mk h10]
  refine ⟨hpipe, ?_, ?_, ?_⟩
  · simp [workerFetch, beq_eq_false_iff_ne.mpr hopt, hpipe]
  · simp only [fallbackHeaders, recordGet, setPairField_find_self, Option.map_some']
  · simp only [fallbackHeaders, recordGet]
    rw [setPairField_find_other _ _ _ _ (by decide)]
    simp only [corsHeaders, List.foldl_cons, List.foldl_nil]
    rw [setPairField_find_other _ _ _ _ (by decide),
        setPairField_find_other _ _ _ _ (by decide), setPairField_find_self]
    rfl

/-- C8 witness: a GET to the unmatched path /foo/bar with a teapot
upstream carrying its own lowercase cache-control header: the status,
body and headers mirror the upstream with CORS overlaid and the forced
Cache-Control entry. -/
theorem fallback_proxy_mirrors_upstream_witness :
    shouldReplaceToken { method := "GET", path := "/foo/bar", headers := [], body := none } = false
    ∧ matchesRoute { method := "GET", path := "/foo/bar", headers := [], body := none } = false
    ∧ (pipeline dummyMd5 (tableParse [])
        (constOracle { status := 418, headers := [("cache-control", "no-store"), ("x-up", "1")], body := "BODY" })
        none "https://token.example" 0
        { method := "GET", path := "/foo/bar", headers := [], body := none }
      = .ok ({ status := (constOracle { status := 418, headers := [("cache-control", "no-store"), ("x-up", "1")], body := "BODY" } (fallbackCall "/foo/bar")).status,
               headers := fallbackHeaders (constOracle { status := 418, headers := [("cache-control", "no-store"), ("x-up", "1")], body := "BODY" } (fallbackCall "/foo/bar")).headers,
               body := some (constOracle { status := 418, headers := [("cache-control", "no-store"), ("x-up", "1")], body := "BODY" } (fallbackCall "/foo/bar")).body },
             [fallbackCall "/foo/bar"])
      ∧ workerFetch dummyMd5 (tableParse [])
          (constOracle { status := 418, headers := [("cache-control", "no-store"), ("x-up", "1")], body := "BODY" })
          none "https://token.example" 0
          { method := "GET", path := "/foo/bar", headers := [], body := none }
        = { status := (constOracle { status := 418, headers := [("cache-control", "no-store"), ("x-up", "1")], body := "BODY" } (fallbackCall "/foo/bar")).status,
            headers := fallbackHeaders (constOracle { status := 418, headers := [("cache-control", "no-store"), ("x-up", "1")], body := "BODY" } (fallbackCall "/foo/bar")).headers,
            body := some (constOracle { status := 418, headers := [("cache-control", "no-store"), ("x-up", "1")], body := "BODY" } (fallbackCall "/foo/bar")).body }
      ∧ recordGet (fallbackHeaders (constOracle { status := 418, headers := [("cache-control", "no-store"), ("x-up", "1")], body := "BODY" } (fallbackCall "/foo/bar")).headers)
          "Cache-Control" = some "public, max-age=300"
      ∧ recordGet (fallbackHeaders (constOracle { status := 418, headers := [("cache-control", "no-store"), ("x-up", "1")], body := "BODY" } (fallbackCall "/foo/bar")).headers)
          "Access-Control-Allow-Origin" = some "*") :=
  ⟨by rfl, by rfl,
   fallback_proxy_mirrors_upstream dummyMd5 (tableParse [])
     (constOracle { status := 418, headers := [("cache-control", "no-store"), ("x-up", "1")], body := "BODY" })
     none "https://token.example" 0
     { method := "GET", path := "/foo/bar", headers := [], body := none }
     (by rfl) (by rfl) (by decide)⟩
